import Mathlib

/-!
Verification development for the challenge-tracker client cache and data
service.  The definitions below are shallow embeddings of the TypeScript
source: the `ChallengeProvider` cache module (challenge list / detail / stats
caches with TTL, in-flight deduplication and optimistic mutations) and the
Supabase data service (`getPeriodKey`, `logGoalCompletion`).  JS numbers are
modelled as `Int` (or `Nat` for timestamps), `Record<string, T>` as functions
`String → Option T` (with the `|| 0` read convention for timestamp records),
and promise identity by a `Nat` tag.
-/

set_option maxHeartbeats 1000000

/-- `Frequency` from src/types.ts: `'daily' | 'weekly' | 'monthly' | 'once'`. -/
inductive Frequency where
  | daily
  | weekly
  | monthly
  | once
deriving DecidableEq, Repr

/-- Challenge status union from src/types.ts. -/
inductive ChallengeStatus where
  | active
  | completed
  | draft
  | cancelled
deriving DecidableEq, Repr

/-- `Participant` from src/types.ts; `avatar?: string` becomes `Option String`. -/
structure Participant where
  userId : String
  name : String
  score : Int
  avatar : Option String
deriving DecidableEq, Repr

/-- `Goal` from src/types.ts; `maxCompletions?: number` (nullable
`max_completions_per_period`) becomes `Option Int`. -/
structure Goal where
  id : String
  title : String
  description : Option String
  icon : String
  points : Int
  frequency : Frequency
  maxCompletions : Option Int
deriving DecidableEq, Repr

/-- `Challenge` from src/types.ts. -/
structure Challenge where
  id : String
  creatorId : String
  name : String
  description : String
  startDate : String
  endDate : String
  maxPlayers : Int
  goals : List Goal
  participants : List Participant
  status : ChallengeStatus
  joinCode : String
  coverImage : Option String
deriving DecidableEq, Repr

/-- `CompletionLog` from src/types.ts; `timestamp` is the ISO string
(`completion_at`), of which the first 10 characters are `YYYY-MM-DD`. -/
structure CompletionLog where
  id : String
  challengeId : String
  goalId : String
  userId : String
  timestamp : String
  pointsEarned : Int
deriving DecidableEq, Repr

/-- Entry of `ChallengeStats.scores`. -/
structure ScoreEntry where
  user_id : String
  total_score : Int
deriving DecidableEq, Repr

/-- Entry of `ChallengeStats.goalScores`. -/
structure GoalScoreEntry where
  user_id : String
  goal_id : String
  score : Int
deriving DecidableEq, Repr

/-- Entry of `ChallengeStats.periodCounts`. -/
structure PeriodCountEntry where
  user_id : String
  goal_id : String
  period_key : String
  count : Int
deriving DecidableEq, Repr

/-- Entry of `ChallengeStats.dailyPoints`. -/
structure DailyPointEntry where
  user_id : String
  goal_id : String
  day : String
  points : Int
deriving DecidableEq, Repr

/-- `ChallengeStats` from src/types.ts. -/
structure ChallengeStats where
  scores : List ScoreEntry
  goalScores : List GoalScoreEntry
  periodCounts : List PeriodCountEntry
  dailyPoints : List DailyPointEntry
deriving DecidableEq, Repr

/-! ## Dates and period keys (data service, src/unnamed/part_005) -/

/-- A calendar date as the date-fns `format` tokens used by the source see it:
`year`/`month`/`day` are the local calendar fields, `week` is the locale week
of year that the external date-fns library computes for the `ww` token, and
`hour`/`minute` carry the time of day (ignored by every token the source
uses). -/
structure DateLW where
  year : Nat
  month : Nat
  day : Nat
  week : Nat
  hour : Nat
  minute : Nat
deriving DecidableEq, Repr

/-- Two-digit zero padding, as date-fns `MM` / `dd` / `ww` produce. -/
def pad2 (n : Nat) : String :=
  if n < 10 then "0" ++ toString n else toString n

/-- Four-digit zero padding, as date-fns `yyyy` produces. -/
def pad4 (n : Nat) : String :=
  if n < 10 then "000" ++ toString n
  else if n < 100 then "00" ++ toString n
  else if n < 1000 then "0" ++ toString n
  else toString n

/-- `getPeriodKey` from the data service:
`daily-${format(date, 'yyyy-MM-dd')}`, `weekly-${format(date, 'yyyy-ww')}`,
`monthly-${format(date, 'yyyy-MM')}`, or the constant `once`. -/
def getPeriodKey (frequency : Frequency) (date : DateLW) : String :=
  match frequency with
  | .daily => "daily-" ++ pad4 date.year ++ "-" ++ pad2 date.month ++ "-" ++ pad2 date.day
  | .weekly => "weekly-" ++ pad4 date.year ++ "-" ++ pad2 date.week
  | .monthly => "monthly-" ++ pad4 date.year ++ "-" ++ pad2 date.month
  | .once => "once"

/-! ## logGoalCompletion (data service, src/unnamed/part_005) -/

/-- One row of the `goal_completions` table, as inserted by
`logGoalCompletion`. -/
structure CompletionRow where
  challenge_id : String
  goal_id : String
  user_id : String
  points_at_time : Int
  period_key : String
  completion_at : DateLW
deriving DecidableEq, Repr

/-- Backend state visible to `logGoalCompletion`: the nullable
`max_completions_per_period` column of each `challenge_goals` row (outer
`Option` = row existence, inner `Option` = SQL NULL), and the
`goal_completions` table. -/
structure Db where
  goalMax : String → Option (Option Int)
  completions : List CompletionRow

/-- Errors thrown by `logGoalCompletion`. -/
inductive LogFailure where
  | goalNotFound
  | limitReached (frequency : Frequency)
deriving DecidableEq, Repr

/-- The count query of `logGoalCompletion`: completions matching
`(goal_id, user_id, period_key)`. -/
def completionCount (db : Db) (goalId userId periodKey : String) : Nat :=
  (db.completions.filter fun r =>
    r.goal_id = goalId ∧ r.user_id = userId ∧ r.period_key = periodKey).length

/-- `logGoalCompletion` from the data service: fetch the goal's
`max_completions_per_period`; if the goal is missing, throw "Goal not found";
if the column is non-null and the matching completion count has reached it,
throw the limit-reached policy error; otherwise insert the new completion
row. -/
def logGoalCompletion (db : Db) (challengeId goalId userId : String)
    (points : Int) (frequency : Frequency) (date : DateLW) :
    Except LogFailure Db :=
  match db.goalMax goalId with
  | none => .error .goalNotFound
  | some maxOpt =>
    let periodKey := getPeriodKey frequency date
    let cnt := completionCount db goalId userId periodKey
    let inserted : Db :=
      { db with completions := db.completions ++
          [{ challenge_id := challengeId, goal_id := goalId, user_id := userId,
             points_at_time := points, period_key := periodKey,
             completion_at := date }] }
    match maxOpt with
    | some mx => if mx ≤ (cnt : Int) then .error (.limitReached frequency) else .ok inserted
    | none => .ok inserted

/-! ## Cache state (ChallengeProvider) -/

/-- `CACHE_TTL_MS = 30_000` — the 30-second freshness window. -/
def CACHE_TTL_MS : Nat := 30000

/-- `EMPTY_STATS` — the empty `ChallengeStats` value. -/
def EMPTY_STATS : ChallengeStats :=
  { scores := [], goalScores := [], periodCounts := [], dailyPoints := [] }

/-- `s.slice(0, n)` — the first `n` characters of a string, as the optimistic
mutations use it to derive `YYYY-MM-DD` from the log timestamp. -/
def strSlice (s : String) (n : Nat) : String := String.mk (s.data.take n)

/-- Point update of a string-keyed record, modelling `{ ...prev, [id]: v }`
and `ref.current[id] = v` (and, with `none`, `delete ref.current[id]`). -/
def setFun {β : Type} (f : String → β) (k : String) (v : β) : String → β :=
  fun x => if x = k then v else f x

/-- The reactive state and refs of `ChallengeProvider`: the challenge list,
the two caches, the loading flags, the per-scope freshness timestamps
(`Record<string, number>` read through `|| 0`, hence `String → Nat`), and the
per-scope in-flight markers, where a held promise is identified by a `Nat`
tag. -/
structure CacheState where
  challenges : Option (List Challenge)
  challengeCache : String → Option Challenge
  statsCache : String → Option ChallengeStats
  hasLoaded : Bool
  isLoading : Bool
  lastFetchAll : Nat
  lastFetchDetail : String → Nat
  lastFetchStats : String → Nat
  inFlightAll : Option Nat
  inFlightDetail : String → Option Nat
  inFlightStats : String → Option Nat

/-- The provider's initial state: `null` list, empty caches, zero
timestamps, no in-flight requests. -/
def emptyCacheState : CacheState :=
  { challenges := none
    challengeCache := fun _ => none
    statsCache := fun _ => none
    hasLoaded := false
    isLoading := false
    lastFetchAll := 0
    lastFetchDetail := fun _ => 0
    lastFetchStats := fun _ => 0
    inFlightAll := none
    inFlightDetail := fun _ => none
    inFlightStats := fun _ => none }

/-- `clearCache`: resets the list to `null`, empties both caches, clears
`hasLoadedRef` and all three freshness trackers.  (It does not touch the
in-flight refs or `isLoading` — mirrored faithfully here.) -/
def clearCache (s : CacheState) : CacheState :=
  { challenges := none
    challengeCache := fun _ => none
    statsCache := fun _ => none
    hasLoaded := false
    isLoading := s.isLoading
    lastFetchAll := 0
    lastFetchDetail := fun _ => 0
    lastFetchStats := fun _ => 0
    inFlightAll := s.inFlightAll
    inFlightDetail := s.inFlightDetail
    inFlightStats := s.inFlightStats }

/-- `invalidateChallenge`: zero the detail and stats freshness timestamps of
one challenge id. -/
def invalidateChallenge (id : String) (s : CacheState) : CacheState :=
  { s with
    lastFetchDetail := setFun s.lastFetchDetail id 0
    lastFetchStats := setFun s.lastFetchStats id 0 }

/-! ## Optimistic mutations (addOptimisticLog / removeOptimisticLog) -/

/-- Models the `findIndex ≥ 0 ? update-in-place : push` pattern used by
`addOptimisticLog` on `periodCounts` and `dailyPoints`: apply `f` to the
first element satisfying `q`, or append `mk` when none matches. -/
def bumpFirst {α : Type} (q : α → Prop) [DecidablePred q] (f : α → α) (mk : α) :
    List α → List α
  | [] => [mk]
  | a :: t => if q a then f a :: t else a :: bumpFirst q f mk t

/-- The stats transform of `addOptimisticLog`: add the log's points to the
matching `scores` and `goalScores` entries (appending a fresh entry when the
`find` misses), and bump the matching `periodCounts` / `dailyPoints` buckets,
keyed by the optimistic period key `daily-` + the first 10 characters of the
log timestamp. -/
def addOptimisticStats (log : CompletionLog) (stats : ChallengeStats) : ChallengeStats :=
  let newScores :=
    if ∃ s ∈ stats.scores, s.user_id = log.userId then
      stats.scores.map fun s =>
        if s.user_id = log.userId then
          { s with total_score := s.total_score + log.pointsEarned } else s
    else stats.scores ++ [{ user_id := log.userId, total_score := log.pointsEarned }]
  let newGoalScores :=
    if ∃ gs ∈ stats.goalScores, gs.user_id = log.userId ∧ gs.goal_id = log.goalId then
      stats.goalScores.map fun gs =>
        if gs.user_id = log.userId ∧ gs.goal_id = log.goalId then
          { gs with score := gs.score + log.pointsEarned } else gs
    else stats.goalScores ++
      [{ user_id := log.userId, goal_id := log.goalId, score := log.pointsEarned }]
  let dayStr := strSlice log.timestamp 10
  let optimisticPeriodKey := "daily-" ++ dayStr
  let newPeriodCounts :=
    bumpFirst
      (fun pc => pc.user_id = log.userId ∧ pc.goal_id = log.goalId ∧
        pc.period_key = optimisticPeriodKey)
      (fun pc => { pc with count := pc.count + 1 })
      { user_id := log.userId, goal_id := log.goalId,
        period_key := optimisticPeriodKey, count := 1 }
      stats.periodCounts
  let newDailyPoints :=
    bumpFirst
      (fun dp => dp.user_id = log.userId ∧ dp.goal_id = log.goalId ∧ dp.day = dayStr)
      (fun dp => { dp with points := dp.points + log.pointsEarned })
      { user_id := log.userId, goal_id := log.goalId, day := dayStr,
        points := log.pointsEarned }
      stats.dailyPoints
  { scores := newScores, goalScores := newGoalScores,
    periodCounts := newPeriodCounts, dailyPoints := newDailyPoints }

/-- The stats transform of `removeOptimisticLog`: subtract the log's points
from every matching `scores` / `goalScores` / `dailyPoints` entry, and
decrement every matching `periodCounts` bucket, clamped at zero
(`Math.max(0, count - 1)`). -/
def removeOptimisticStats (log : CompletionLog) (stats : ChallengeStats) : ChallengeStats :=
  let dayStr := strSlice log.timestamp 10
  let optimisticPeriodKey := "daily-" ++ dayStr
  { scores := stats.scores.map fun s =>
      if s.user_id = log.userId then
        { s with total_score := s.total_score - log.pointsEarned } else s
    goalScores := stats.goalScores.map fun gs =>
      if gs.user_id = log.userId ∧ gs.goal_id = log.goalId then
        { gs with score := gs.score - log.pointsEarned } else gs
    periodCounts := stats.periodCounts.map fun pc =>
      if pc.user_id = log.userId ∧ pc.goal_id = log.goalId ∧
          pc.period_key = optimisticPeriodKey then
        { pc with count := max 0 (pc.count - 1) } else pc
    dailyPoints := stats.dailyPoints.map fun dp =>
      if dp.user_id = log.userId ∧ dp.goal_id = log.goalId ∧ dp.day = dayStr then
        { dp with points := dp.points - log.pointsEarned } else dp }

/-- `participants: challenge.participants.map(p => p.userId === log.userId ?
{ ...p, score: p.score + delta } : p)` — the participant-score rewrite both
optimistic mutations perform on a cached challenge. -/
def challengeBump (userId : String) (delta : Int) (challenge : Challenge) : Challenge :=
  { challenge with participants := challenge.participants.map fun p =>
      if p.userId = userId then { p with score := p.score + delta } else p }

/-- The `setChallengeCache` updater shared by both optimistic mutations:
add `delta` to the score of every participant whose `userId` matches the
log's user; challenges absent from the cache are left untouched. -/
def bumpParticipantScore (challengeId : String) (userId : String) (delta : Int)
    (cache : String → Option Challenge) : String → Option Challenge :=
  match cache challengeId with
  | none => cache
  | some challenge =>
    setFun cache challengeId (some (challengeBump userId delta challenge))

/-- `addOptimisticLog(challengeId, log)`: rebuild the stats entry starting
from the cached stats (or `EMPTY_STATS` when absent), then add the log's
points to the matching participant of the cached challenge. -/
def addOptimisticLog (challengeId : String) (log : CompletionLog) (s : CacheState) :
    CacheState :=
  let stats := (s.statsCache challengeId).getD EMPTY_STATS
  { s with
    statsCache := setFun s.statsCache challengeId (some (addOptimisticStats log stats))
    challengeCache := bumpParticipantScore challengeId log.userId log.pointsEarned
      s.challengeCache }

/-- `removeOptimisticLog(challengeId, _logId, log)`: reverse the stats entry
when one is cached (challenges absent from `statsCache` are left untouched),
then subtract the log's points from the matching participant. -/
def removeOptimisticLog (challengeId : String) (_logId : String) (log : CompletionLog)
    (s : CacheState) : CacheState :=
  let newStatsCache :=
    match s.statsCache challengeId with
    | none => s.statsCache
    | some stats => setFun s.statsCache challengeId (some (removeOptimisticStats log stats))
  { s with
    statsCache := newStatsCache
    challengeCache := bumpParticipantScore challengeId log.userId (-log.pointsEarned)
      s.challengeCache }

/-! ## Stats lookup observations

Value-level reads of a stats snapshot, matching how the source reads the
aggregates (`find` on the entry lists, with `0` for a miss). -/

/-- First matching entry under `q`, observed through `v`, defaulting to 0. -/
def lookupD {α : Type} (q : α → Prop) [DecidablePred q] (v : α → Int) :
    List α → Int
  | [] => 0
  | a :: t => if q a then v a else lookupD q v t

/-- Total score of a user in a stats snapshot. -/
def totalScoreOf (stats : ChallengeStats) (u : String) : Int :=
  lookupD (fun s => s.user_id = u) (fun s => s.total_score) stats.scores

/-- Per-goal score of a (user, goal) in a stats snapshot. -/
def goalScoreOf (stats : ChallengeStats) (u g : String) : Int :=
  lookupD (fun gs => gs.user_id = u ∧ gs.goal_id = g) (fun gs => gs.score)
    stats.goalScores

/-- Period-completion count of a (user, goal, period key) in a stats
snapshot. -/
def periodCountOf (stats : ChallengeStats) (u g key : String) : Int :=
  lookupD (fun pc => pc.user_id = u ∧ pc.goal_id = g ∧ pc.period_key = key)
    (fun pc => pc.count) stats.periodCounts

/-- Daily points bucket of a (user, goal, day) in a stats snapshot. -/
def dailyPointsOf (stats : ChallengeStats) (u g day : String) : Int :=
  lookupD (fun dp => dp.user_id = u ∧ dp.goal_id = g ∧ dp.day = day)
    (fun dp => dp.points) stats.dailyPoints

/-- The stats snapshot a cache state holds for a challenge, reading an absent
entry as `EMPTY_STATS` (the base the optimistic add starts from). -/
def statsOf (s : CacheState) (challengeId : String) : ChallengeStats :=
  (s.statsCache challengeId).getD EMPTY_STATS

/-! ## Merge-on-list-refresh (refreshChallenges) -/

/-- `new Map(ps.map(p => [p.userId, p])).get(u)`: the *last* participant with
the given user id, since later `Map` entries overwrite earlier ones. -/
def participantLookup (ps : List Participant) (u : String) : Option Participant :=
  ps.foldl (fun acc p => if p.userId = u then some p else acc) none

/-- Merge of one incoming participant over the prior record:
`{ ...prior, ...p, score: prior.score ?? p.score, name: p.name || prior.name,
avatar: p.avatar || prior.avatar }`.  `score` is non-nullable in the
`Participant` type, so `prior.score ?? p.score` is `prior.score`; `||` keeps
the prior field when the incoming one is an empty string or absent. -/
def mergeParticipant (prior p : Participant) : Participant :=
  { userId := p.userId
    name := if p.name = "" then prior.name else p.name
    score := prior.score
    avatar :=
      match p.avatar with
      | none => prior.avatar
      | some a => if a = "" then prior.avatar else some a }

/-- Merge of one incoming lightweight challenge over an existing cache entry
(`refreshChallenges`): `{ ...existing, ...c, goals: existing.goals?.length ?
existing.goals : c.goals, participants: mergedParticipants }`, where each
incoming participant is merged against the prior record of the same user id
when one exists. -/
def mergeChallengeEntry (existing c : Challenge) : Challenge :=
  { c with
    goals := if existing.goals.isEmpty then c.goals else existing.goals
    participants := c.participants.map fun p =>
      match participantLookup existing.participants p.userId with
      | none => p
      | some prior => mergeParticipant prior p }

/-- One iteration of the `data.forEach` loop in `refreshChallenges`'s
`setChallengeCache` updater: write the incoming challenge (merged against
`prev` when an entry exists) into the accumulator `next`.  Note the source
reads `existing` from `prev`, not from `next`. -/
def mergeStep (prev : String → Option Challenge) (next : String → Option Challenge)
    (c : Challenge) : String → Option Challenge :=
  setFun next c.id
    (some (match prev c.id with
           | none => c
           | some existing => mergeChallengeEntry existing c))

/-- The whole `setChallengeCache` updater of `refreshChallenges`: fold the
returned list over the previous cache. -/
def mergeChallengeList (prev : String → Option Challenge) (data : List Challenge) :
    String → Option Challenge :=
  data.foldl (mergeStep prev) prev

/-- The success continuation of `refreshChallenges` (after
`api.getAllChallenges` resolves): store the list, mark loaded, stamp the
whole-list freshness, merge into the challenge cache; the `finally` block
clears `isLoading` and the whole-list in-flight marker. -/
def refreshChallengesApply (now : Nat) (data : List Challenge) (s : CacheState) :
    CacheState :=
  { s with
    challenges := some data
    hasLoaded := true
    lastFetchAll := now
    challengeCache := mergeChallengeList s.challengeCache data
    isLoading := false
    inFlightAll := none }

/-! ## Stats application (fetchStats success continuation) -/

/-- The `scoreMap` built by `fetchStats`:
`for (s of stats.scores) scoreMap[s.user_id] = s.total_score` — the last
entry for a user wins. -/
def scoreMapLookup (scores : List ScoreEntry) (u : String) : Option Int :=
  scores.foldl (fun acc e => if e.user_id = u then some e.total_score else acc) none

/-- Rewrite every participant's score from the stats score map
(`score: scoreMap[p.userId] || 0`). -/
def applyStatsToChallenge (stats : ChallengeStats) (c : Challenge) : Challenge :=
  { c with participants := c.participants.map fun p =>
      { p with score := (scoreMapLookup stats.scores p.userId).getD 0 } }

/-- The success continuation of `fetchStats(id)` (after `api.getStats`
resolves with `stats`): store the snapshot, stamp the stats freshness,
derive participant scores in the challenge cache (a missing challenge entry
is left untouched); the `finally` block deletes the in-flight marker. -/
def fetchStatsApply (now : Nat) (id : String) (stats : ChallengeStats)
    (s : CacheState) : CacheState :=
  let s1 := { s with
    statsCache := setFun s.statsCache id (some stats)
    lastFetchStats := setFun s.lastFetchStats id now }
  let s2 :=
    match s1.challengeCache id with
    | none => s1
    | some challenge =>
      { s1 with challengeCache :=
          setFun s1.challengeCache id (some (applyStatsToChallenge stats challenge)) }
  { s2 with inFlightStats := setFun s2.inFlightStats id none }

/-! ## Synchronous start segments (TTL / dedup machinery)

Execution is single-threaded and cooperative: each accessor runs
synchronously up to its first `await`.  The functions below model exactly
that synchronous prefix.  They return the number of network requests the
segment issues, what the caller observes (a value resolved synchronously,
or a suspension awaiting the network), and the state at the suspension
point.  `pid` tags the promise a newly started fetch stores in its
in-flight ref. -/

/-- Outcome of a read accessor's synchronous segment. -/
inductive SyncResult (α : Type) where
  | value : α → SyncResult α
  | suspended : SyncResult α
deriving DecidableEq

/-- Synchronous prefix of `fetchStats(id)`: skip when fetched less than
`CACHE_TTL_MS` ago; return the existing in-flight promise when one is
outstanding; otherwise issue the network request and store the new promise
in the in-flight ref.  Result: (requests issued, promise the caller gets,
state). -/
def fetchStatsStart (now pid : Nat) (id : String) (s : CacheState) :
    Nat × Option Nat × CacheState :=
  if now - s.lastFetchStats id < CACHE_TTL_MS then (0, none, s)
  else
    match s.inFlightStats id with
    | some p => (0, some p, s)
    | none => (1, some pid, { s with inFlightStats := setFun s.inFlightStats id (some pid) })

/-- Synchronous prefix of `fetchChallengeDetail(id)` — same shape as
`fetchStatsStart` over the detail trackers. -/
def fetchChallengeDetailStart (now pid : Nat) (id : String) (s : CacheState) :
    Nat × Option Nat × CacheState :=
  if now - s.lastFetchDetail id < CACHE_TTL_MS then (0, none, s)
  else
    match s.inFlightDetail id with
    | some p => (0, some p, s)
    | none => (1, some pid, { s with inFlightDetail := setFun s.inFlightDetail id (some pid) })

/-- Synchronous prefix of `getStats(id)`: a cached snapshot is returned
immediately, kicking off a fire-and-forget `fetchStats` only when its age
reaches `CACHE_TTL_MS`; with no cached snapshot the accessor calls
`api.getStats(id)` directly — one network request, no marker consulted or
set — and suspends awaiting it. -/
def getStatsStart (now pid : Nat) (id : String) (s : CacheState) :
    Nat × SyncResult ChallengeStats × CacheState :=
  match s.statsCache id with
  | some cached =>
    if CACHE_TTL_MS ≤ now - s.lastFetchStats id then
      let r := fetchStatsStart now pid id s
      (r.1, .value cached, r.2.2)
    else (0, .value cached, s)
  | none => (1, .suspended, s)

/-- Synchronous prefix of `getChallenge(id)` — same shape as `getStatsStart`
over the detail trackers, with the direct `api.getChallengeById` call on a
cache miss. -/
def getChallengeStart (now pid : Nat) (id : String) (s : CacheState) :
    Nat × SyncResult Challenge × CacheState :=
  match s.challengeCache id with
  | some cached =>
    if CACHE_TTL_MS ≤ now - s.lastFetchDetail id then
      let r := fetchChallengeDetailStart now pid id s
      (r.1, .value cached, r.2.2)
    else (0, .value cached, s)
  | none => (1, .suspended, s)

/-- `n` concurrent callers of `fetchStats(id)`: each caller's synchronous
segment runs to completion before the next starts (no fetch resolves in
between); the total is the number of network requests issued. -/
def iterateFetchStatsStart (now : Nat) (id : String) : Nat → CacheState → Nat × CacheState
  | 0, s => (0, s)
  | n + 1, s =>
    let r := fetchStatsStart now (n + 1) id s
    let rest := iterateFetchStatsStart now id n r.2.2
    (r.1 + rest.1, rest.2)

/-- Two concurrent callers of `getStats(id)` before either network reply
arrives: the total number of network requests their synchronous segments
issue. -/
def twoGetStatsCalls (now : Nat) (id : String) (s : CacheState) : Nat :=
  let r1 := getStatsStart now 1 id s
  let r2 := getStatsStart now 2 id r1.2.2
  r1.1 + r2.1

/-! ## Example fixtures (used by witnesses and counterexamples) -/

/-- 2024-01-15, locale week 03. -/
def dEx : DateLW := { year := 2024, month := 1, day := 15, week := 3, hour := 9, minute := 30 }

/-- The same calendar date at another time of day. -/
def dEx2 : DateLW := { year := 2024, month := 1, day := 15, week := 3, hour := 22, minute := 5 }

def logEx : CompletionLog :=
  { id := "temp1", challengeId := "c1", goalId := "g1", userId := "u1",
    timestamp := "2024-01-01T00:00:00Z", pointsEarned := 10 }

def gEx : Goal :=
  { id := "g1", title := "Run", description := none, icon := "activity",
    points := 10, frequency := .daily, maxCompletions := some 1 }

def pEx1 : Participant := { userId := "u1", name := "Ann", score := 5, avatar := none }

def pEx2 : Participant := { userId := "u2", name := "Bob", score := 7, avatar := some "av2" }

def chEx : Challenge :=
  { id := "c1", creatorId := "u1", name := "January", description := "",
    startDate := "2024-01-01", endDate := "2024-01-31", maxPlayers := 10,
    goals := [gEx], participants := [pEx1, pEx2], status := .active,
    joinCode := "STRIVE-1", coverImage := none }

/-- The lightweight list-endpoint version of `chEx`: empty goals, blank
participant names, zero scores. -/
def chExLight : Challenge :=
  { id := "c1", creatorId := "u1", name := "January renamed", description := "",
    startDate := "2024-01-01", endDate := "2024-01-31", maxPlayers := 10,
    goals := [],
    participants := [{ userId := "u1", name := "", score := 0, avatar := none }],
    status := .active, joinCode := "STRIVE-1", coverImage := none }

def stEx : ChallengeStats :=
  { scores := [{ user_id := "u1", total_score := 7 }]
    goalScores := [{ user_id := "u1", goal_id := "g1", score := 7 }]
    periodCounts := [{ user_id := "u1", goal_id := "g1", period_key := "daily-2024-01-01", count := 1 }]
    dailyPoints := [{ user_id := "u1", goal_id := "g1", day := "2024-01-01", points := 7 }] }

/-- A stats snapshot whose scores list gives u1 total 42 and says nothing
about u2. -/
def stEx42 : ChallengeStats :=
  { scores := [{ user_id := "u1", total_score := 42 }]
    goalScores := [], periodCounts := [], dailyPoints := [] }

/-- A populated cache state: challenge c1 and its stats cached, both
stamped at time 1000, nothing in flight. -/
def sExPop : CacheState :=
  { emptyCacheState with
    challengeCache := setFun emptyCacheState.challengeCache "c1" (some chEx)
    statsCache := setFun emptyCacheState.statsCache "c1" (some stEx)
    lastFetchDetail := setFun emptyCacheState.lastFetchDetail "c1" 1000
    lastFetchStats := setFun emptyCacheState.lastFetchStats "c1" 1000 }

/-- A state with an outstanding stats request for c1 (promise tag 7) and an
outstanding whole-list request (tag 5). -/
def sExInFlight : CacheState :=
  { emptyCacheState with
    inFlightAll := some 5
    inFlightStats := setFun emptyCacheState.inFlightStats "c1" (some 7) }

def rowEx : CompletionRow :=
  { challenge_id := "c1", goal_id := "g1", user_id := "u1", points_at_time := 5,
    period_key := "daily-2024-01-15", completion_at := dEx }

/-- A backend where goal g1 exists with `max_completions_per_period = NULL`
and u1 already has one completion of g1 in today's daily period. -/
def dbExNull : Db :=
  { goalMax := fun g => if g = "g1" then some none else none
    completions := [rowEx] }

/-- A backend where goal g1 has `max_completions_per_period = 1` and u1
already has one completion of g1 in today's daily period. -/
def dbExLim : Db :=
  { goalMax := fun g => if g = "g1" then some (some 1) else none
    completions := [rowEx] }

/-! ## Helper lemmas -/

lemma lookupD_nil {α : Type} (q : α → Prop) [DecidablePred q] (v : α → Int) :
    lookupD q v [] = 0 := rfl

lemma lookupD_cons {α : Type} (q : α → Prop) [DecidablePred q] (v : α → Int)
    (a : α) (t : List α) :
    lookupD q v (a :: t) = if q a then v a else lookupD q v t := rfl

lemma lookupD_eq_zero_of_none {α : Type} (q : α → Prop) [DecidablePred q]
    (v : α → Int) (l : List α) (h : ∀ a ∈ l, ¬ q a) : lookupD q v l = 0 := by
  induction l with
  | nil => rfl
  | cons a t ih =>
    rw [lookupD_cons, if_neg (h a (List.mem_cons_self a t))]
    exact ih fun x hx => h x (List.mem_cons_of_mem a hx)

lemma lookupD_append_none {α : Type} (q : α → Prop) [DecidablePred q]
    (v : α → Int) (l1 l2 : List α) (h : ∀ a ∈ l1, ¬ q a) :
    lookupD q v (l1 ++ l2) = lookupD q v l2 := by
  induction l1 with
  | nil => rfl
  | cons a t ih =>
    rw [List.cons_append, lookupD_cons, if_neg (h a (List.mem_cons_self a t))]
    exact ih fun x hx => h x (List.mem_cons_of_mem a hx)

lemma map_cancel_of_inverse {α : Type} (f g : α → α) (h : ∀ a, g (f a) = a)
    (l : List α) : (l.map f).map g = l := by
  induction l with
  | nil => rfl
  | cons a t ih => simp [h, ih]

lemma map_if_id_of_none {α : Type} (q : α → Prop) [DecidablePred q] (g : α → α)
    (l : List α) (h : ∀ a ∈ l, ¬ q a) :
    (l.map fun a => if q a then g a else a) = l := by
  induction l with
  | nil => rfl
  | cons a t ih =>
    simp only [List.map_cons, if_neg (h a (List.mem_cons_self a t))]
    rw [ih fun x hx => h x (List.mem_cons_of_mem a hx)]

/-- Cancellation of the matching-only bump and its matching-only inverse. -/
lemma map_if_cancel {α : Type} (q : α → Prop) [DecidablePred q]
    (f g : α → α) (hgf : ∀ a, q a → g (f a) = a) (hqf : ∀ a, q a → q (f a))
    (l : List α) :
    ((l.map fun a => if q a then f a else a).map
      fun a => if q a then g a else a) = l := by
  induction l with
  | nil => rfl
  | cons a t ih =>
    by_cases hqa : q a
    · simp only [List.map_cons, if_pos hqa, if_pos (hqf a hqa), hgf a hqa]
      rw [ih]
    · simp only [List.map_cons, if_neg hqa]
      rw [ih]

/-- Round trip of the `find ? map-all : append` add pipeline followed by the
map-all remove pipeline, observed through `lookupD`. -/
lemma addAll_remove_lookupD {α : Type} (q : α → Prop) [DecidablePred q]
    (f g : α → α) (mk : α) (v : α → Int)
    (hgf : ∀ a, q a → g (f a) = a)
    (hqf : ∀ a, q a → q (f a))
    (hqg : ∀ a, q a → q (g a))
    (hmk : q mk) (hvmk : v (g mk) = 0) (l : List α) :
    lookupD q v
      ((if ∃ a ∈ l, q a then l.map (fun a => if q a then f a else a)
        else l ++ [mk]).map (fun a => if q a then g a else a))
      = lookupD q v l := by
  by_cases h : ∃ a ∈ l, q a
  · rw [if_pos h, map_if_cancel q f g hgf hqf]
  · push_neg at h
    rw [if_neg (by push_neg; exact h), List.map_append,
      map_if_id_of_none q g l h, lookupD_append_none q v l _ h,
      lookupD_eq_zero_of_none q v l h]
    simp only [List.map_cons, List.map_nil, if_pos hmk]
    rw [lookupD_cons, if_pos (hqg mk hmk), hvmk]

/-- Round trip of the `findIndex ? bump-first : push` add pipeline followed
by the map-all remove pipeline, observed through `lookupD`; `P` carries the
side condition the first matching bucket needs (non-negativity for the
clamped period counts, trivial for daily points). -/
lemma bumpFirst_remove_lookupD {α : Type} (q : α → Prop) [DecidablePred q]
    (f g : α → α) (mk : α) (v : α → Int) (P : Int → Prop)
    (hqf : ∀ a, q a → q (f a)) (hqg : ∀ a, q a → q (g a))
    (hmk : q mk) (hvmk : v (g mk) = 0)
    (hv : ∀ a, q a → P (v a) → v (g (f a)) = v a)
    (l : List α) (hl : P (lookupD q v l)) :
    lookupD q v ((bumpFirst q f mk l).map fun a => if q a then g a else a)
      = lookupD q v l := by
  induction l with
  | nil =>
    simp only [bumpFirst, List.map_cons, List.map_nil, if_pos hmk]
    rw [lookupD_cons, if_pos (hqg mk hmk), hvmk, lookupD_nil]
  | cons a t ih =>
    by_cases hqa : q a
    · have hval : lookupD q v (a :: t) = v a := by rw [lookupD_cons, if_pos hqa]
      simp only [bumpFirst, if_pos hqa, List.map_cons, if_pos (hqf a hqa)]
      rw [lookupD_cons, if_pos (hqg _ (hqf a hqa)), hval]
      exact hv a hqa (hval ▸ hl)
    · have hval : lookupD q v (a :: t) = lookupD q v t := by
        rw [lookupD_cons, if_neg hqa]
      simp only [bumpFirst, if_neg hqa, List.map_cons]
      rw [lookupD_cons, if_neg hqa, hval]
      exact ih (hval ▸ hl)

/-- Add-then-remove leaves the user's total score unchanged. -/
lemma totalScore_roundtrip (log : CompletionLog) (stats : ChallengeStats) :
    totalScoreOf (removeOptimisticStats log (addOptimisticStats log stats)) log.userId
      = totalScoreOf stats log.userId := by
  have h := addAll_remove_lookupD (fun s : ScoreEntry => s.user_id = log.userId)
    (fun s => { s with total_score := s.total_score + log.pointsEarned })
    (fun s => { s with total_score := s.total_score - log.pointsEarned })
    { user_id := log.userId, total_score := log.pointsEarned }
    (fun s => s.total_score)
    (fun a _ => by cases a; simp)
    (fun a ha => ha) (fun a ha => ha) rfl (by simp) stats.scores
  simpa [totalScoreOf, addOptimisticStats, removeOptimisticStats] using h

/-- Add-then-remove leaves the (user, goal) score unchanged. -/
lemma goalScore_roundtrip (log : CompletionLog) (stats : ChallengeStats) :
    goalScoreOf (removeOptimisticStats log (addOptimisticStats log stats))
      log.userId log.goalId = goalScoreOf stats log.userId log.goalId := by
  have h := addAll_remove_lookupD
    (fun gs : GoalScoreEntry => gs.user_id = log.userId ∧ gs.goal_id = log.goalId)
    (fun gs => { gs with score := gs.score + log.pointsEarned })
    (fun gs => { gs with score := gs.score - log.pointsEarned })
    { user_id := log.userId, goal_id := log.goalId, score := log.pointsEarned }
    (fun gs => gs.score)
    (fun a _ => by cases a; simp)
    (fun a ha => ha) (fun a ha => ha) ⟨rfl, rfl⟩ (by simp) stats.goalScores
  simpa [goalScoreOf, addOptimisticStats, removeOptimisticStats] using h

/-- Add-then-remove leaves the (user, goal, period) count unchanged, as long
as the count the lookup sees was non-negative (`Math.max(0, ·)` would
otherwise clamp). -/
lemma periodCount_roundtrip (log : CompletionLog) (stats : ChallengeStats)
    (hpc : 0 ≤ periodCountOf stats log.userId log.goalId
      ("daily-" ++ strSlice log.timestamp 10)) :
    periodCountOf (removeOptimisticStats log (addOptimisticStats log stats))
        log.userId log.goalId ("daily-" ++ strSlice log.timestamp 10)
      = periodCountOf stats log.userId log.goalId ("daily-" ++ strSlice log.timestamp 10) := by
  have h := bumpFirst_remove_lookupD
    (fun pc : PeriodCountEntry => pc.user_id = log.userId ∧ pc.goal_id = log.goalId ∧
      pc.period_key = "daily-" ++ strSlice log.timestamp 10)
    (fun pc => { pc with count := pc.count + 1 })
    (fun pc => { pc with count := max 0 (pc.count - 1) })
    { user_id := log.userId, goal_id := log.goalId,
      period_key := "daily-" ++ strSlice log.timestamp 10, count := 1 }
    (fun pc => pc.count) (fun n => 0 ≤ n)
    (fun a ha => ha) (fun a ha => ha) ⟨rfl, rfl, rfl⟩ (by simp)
    (fun a _ h0 => by cases a; simp at h0 ⊢; omega)
    stats.periodCounts hpc
  simpa [periodCountOf, addOptimisticStats, removeOptimisticStats] using h

/-- Unconditional variant of `bumpFirst_remove_lookupD` for unclamped
buckets. -/
lemma bumpFirst_remove_lookupD_total {α : Type} (q : α → Prop) [DecidablePred q]
    (f g : α → α) (mk : α) (v : α → Int)
    (hqf : ∀ a, q a → q (f a)) (hqg : ∀ a, q a → q (g a))
    (hmk : q mk) (hvmk : v (g mk) = 0)
    (hv : ∀ a, q a → v (g (f a)) = v a)
    (l : List α) :
    lookupD q v ((bumpFirst q f mk l).map fun a => if q a then g a else a)
      = lookupD q v l := by
  induction l with
  | nil =>
    simp only [bumpFirst, List.map_cons, List.map_nil, if_pos hmk]
    rw [lookupD_cons, if_pos (hqg mk hmk), hvmk, lookupD_nil]
  | cons a t ih =>
    by_cases hqa : q a
    · simp only [bumpFirst, if_pos hqa, List.map_cons, if_pos (hqf a hqa)]
      rw [lookupD_cons, if_pos (hqg _ (hqf a hqa)), lookupD_cons, if_pos hqa]
      exact hv a hqa
    · simp only [bumpFirst, if_neg hqa, List.map_cons]
      rw [lookupD_cons, if_neg hqa, lookupD_cons, if_neg hqa]
      exact ih

/-- Add-then-remove leaves the (user, goal, day) daily-points bucket
unchanged. -/
lemma dailyPoints_roundtrip (log : CompletionLog) (stats : ChallengeStats) :
    dailyPointsOf (removeOptimisticStats log (addOptimisticStats log stats))
        log.userId log.goalId (strSlice log.timestamp 10)
      = dailyPointsOf stats log.userId log.goalId (strSlice log.timestamp 10) := by
  have h := bumpFirst_remove_lookupD_total
    (fun dp : DailyPointEntry => dp.user_id = log.userId ∧ dp.goal_id = log.goalId ∧
      dp.day = strSlice log.timestamp 10)
    (fun dp => { dp with points := dp.points + log.pointsEarned })
    (fun dp => { dp with points := dp.points - log.pointsEarned })
    { user_id := log.userId, goal_id := log.goalId, day := strSlice log.timestamp 10,
      points := log.pointsEarned }
    (fun dp => dp.points)
    (fun a ha => ha) (fun a ha => ha) ⟨rfl, rfl, rfl⟩ (by simp)
    (fun a _ => by cases a; simp)
    stats.dailyPoints
  simpa [dailyPointsOf, addOptimisticStats, removeOptimisticStats] using h

/-- Pointwise characterization of `bumpParticipantScore`. -/
lemma bumpParticipantScore_apply (cid u : String) (delta : Int)
    (cache : String → Option Challenge) (k : String) :
    bumpParticipantScore cid u delta cache k
      = if k = cid then (cache cid).map (challengeBump u delta) else cache k := by
  unfold bumpParticipantScore
  cases hc : cache cid with
  | none =>
    by_cases hk : k = cid
    · subst hk
      simp [hc]
    · simp [hk]
  | some ch => simp [setFun]

/-- Bumping a participant's score by `delta` then by `-delta` is the
identity on a challenge value. -/
lemma challengeBump_cancel (u : String) (delta : Int) (ch : Challenge) :
    challengeBump u (-delta) (challengeBump u delta ch) = ch := by
  have hps : ((ch.participants.map fun p =>
      if p.userId = u then { p with score := p.score + delta } else p).map
        fun p => if p.userId = u then { p with score := p.score + -delta } else p)
      = ch.participants := by
    apply map_cancel_of_inverse
    intro p
    obtain ⟨pu, pn, ps, pa⟩ := p
    by_cases hp : pu = u
    · simp [hp]
    · simp [hp]
  show ({ ch with participants := _ } : Challenge) = ch
  rw [show ∀ l, ({ ch with participants := l } : Challenge) = ch ↔ l = ch.participants from
    fun l => by cases ch; simp [Challenge.mk.injEq]]
  exact hps

/-- Adding then subtracting the same delta to the matching participant's
score is the identity on the challenge cache. -/
lemma bumpParticipantScore_roundtrip (cid u : String) (delta : Int)
    (cache : String → Option Challenge) (k : String) :
    bumpParticipantScore cid u (-delta) (bumpParticipantScore cid u delta cache) k
      = cache k := by
  by_cases hk : k = cid
  · subst hk
    rw [bumpParticipantScore_apply, if_pos rfl, bumpParticipantScore_apply, if_pos rfl]
    cases hc : cache k with
    | none => rfl
    | some ch => simp [challengeBump_cancel]
  · rw [bumpParticipantScore_apply, if_neg hk, bumpParticipantScore_apply, if_neg hk]

/-! ## Claim theorems -/

/-- C1: Optimistic round-trip — for every cached state, challenge id and
completion log, `addOptimisticLog` followed by `removeOptimisticLog` with the
same log leaves the total score, per-goal score, period count and daily
points at the log's (user, goal, period, day), and the challenge-cache entry
holding the participant scores, identical to their pre-add values.  (The
period count the lookup sees must be non-negative, as every reachable stats
snapshot satisfies; `Math.max(0, ·)` would clamp a negative one.) -/
theorem optimistic_add_remove_roundtrip (s : CacheState) (c : String)
    (log : CompletionLog)
    (hpc : 0 ≤ periodCountOf (statsOf s c) log.userId log.goalId
      ("daily-" ++ strSlice log.timestamp 10)) :
    totalScoreOf (statsOf (removeOptimisticLog c log.id log (addOptimisticLog c log s)) c)
        log.userId
      = totalScoreOf (statsOf s c) log.userId ∧
    goalScoreOf (statsOf (removeOptimisticLog c log.id log (addOptimisticLog c log s)) c)
        log.userId log.goalId
      = goalScoreOf (statsOf s c) log.userId log.goalId ∧
    periodCountOf (statsOf (removeOptimisticLog c log.id log (addOptimisticLog c log s)) c)
        log.userId log.goalId ("daily-" ++ strSlice log.timestamp 10)
      = periodCountOf (statsOf s c) log.userId log.goalId
          ("daily-" ++ strSlice log.timestamp 10) ∧
    dailyPointsOf (statsOf (removeOptimisticLog c log.id log (addOptimisticLog c log s)) c)
        log.userId log.goalId (strSlice log.timestamp 10)
      = dailyPointsOf (statsOf s c) log.userId log.goalId (strSlice log.timestamp 10) ∧
    (removeOptimisticLog c log.id log (addOptimisticLog c log s)).challengeCache c
      = s.challengeCache c := by
  have hstats : statsOf (removeOptimisticLog c log.id log (addOptimisticLog c log s)) c
      = removeOptimisticStats log (addOptimisticStats log (statsOf s c)) := by
    simp [removeOptimisticLog, addOptimisticLog, statsOf, setFun]
  have hcc : (removeOptimisticLog c log.id log (addOptimisticLog c log s)).challengeCache c
      = s.challengeCache c := by
    simp only [removeOptimisticLog, addOptimisticLog]
    exact bumpParticipantScore_roundtrip c log.userId log.pointsEarned s.challengeCache c
  refine ⟨?_, ?_, ?_, ?_, hcc⟩
  · rw [hstats]
    exact totalScore_roundtrip log (statsOf s c)
  · rw [hstats]
    exact goalScore_roundtrip log (statsOf s c)
  · rw [hstats]
    exact periodCount_roundtrip log (statsOf s c) hpc
  · rw [hstats]
    exact dailyPoints_roundtrip log (statsOf s c)

/-- Witness for C1 at the populated example state. -/
theorem optimistic_add_remove_roundtrip_witness :
    (0 ≤ periodCountOf (statsOf sExPop "c1") logEx.userId logEx.goalId
      ("daily-" ++ strSlice logEx.timestamp 10)) ∧
    (totalScoreOf (statsOf (removeOptimisticLog "c1" logEx.id logEx
          (addOptimisticLog "c1" logEx sExPop)) "c1") logEx.userId
        = totalScoreOf (statsOf sExPop "c1") logEx.userId ∧
      goalScoreOf (statsOf (removeOptimisticLog "c1" logEx.id logEx
          (addOptimisticLog "c1" logEx sExPop)) "c1") logEx.userId logEx.goalId
        = goalScoreOf (statsOf sExPop "c1") logEx.userId logEx.goalId ∧
      periodCountOf (statsOf (removeOptimisticLog "c1" logEx.id logEx
          (addOptimisticLog "c1" logEx sExPop)) "c1") logEx.userId logEx.goalId
          ("daily-" ++ strSlice logEx.timestamp 10)
        = periodCountOf (statsOf sExPop "c1") logEx.userId logEx.goalId
            ("daily-" ++ strSlice logEx.timestamp 10) ∧
      dailyPointsOf (statsOf (removeOptimisticLog "c1" logEx.id logEx
          (addOptimisticLog "c1" logEx sExPop)) "c1") logEx.userId logEx.goalId
          (strSlice logEx.timestamp 10)
        = dailyPointsOf (statsOf sExPop "c1") logEx.userId logEx.goalId
            (strSlice logEx.timestamp 10) ∧
      (removeOptimisticLog "c1" logEx.id logEx
          (addOptimisticLog "c1" logEx sExPop)).challengeCache "c1"
        = sExPop.challengeCache "c1") :=
  ⟨by decide, optimistic_add_remove_roundtrip sExPop "c1" logEx (by decide)⟩

/-- When an in-flight marker is set, any number of further `fetchStats`
synchronous segments issue no network call and leave the state unchanged. -/
lemma iterateFetchStatsStart_inflight (now : Nat) (id : String) (n : Nat)
    (s : CacheState) (p : Nat) (h : s.inFlightStats id = some p) :
    iterateFetchStatsStart now id n s = (0, s) := by
  induction n with
  | zero => rfl
  | succ k ih =>
    simp only [iterateFetchStatsStart]
    by_cases hf : now - s.lastFetchStats id < CACHE_TTL_MS
    · simp [fetchStatsStart, hf, ih]
    · simp [fetchStatsStart, hf, h, ih]

/-- C2 counterexample: two concurrent `getStats` reads of an uncached scope
each issue their own direct network call — 2 requests, not the claimed 1 —
because the cache-miss path of the read accessor calls the API directly
without consulting or setting the in-flight marker. -/
theorem getStats_uncached_dedup_counterexample :
    twoGetStatsCalls 50000 "c1" emptyCacheState = 2 ∧ (2 : Nat) ≠ 1 :=
  ⟨rfl, by decide⟩

/-- C2 amended: in-flight deduplication holds for the fetch functions: a
`fetchStats` call finding an outstanding request for a stale scope returns
that same promise and issues no network call, and `n ≥ 1` concurrent
`fetchStats` calls for a stale scope with no outstanding request issue
exactly one network call between them — while a `getStats`/`getChallenge`
cache miss issues its own direct network call each time. -/
theorem fetchStats_inflight_dedup (s : CacheState) (id : String) (now n p : Nat) :
    (s.inFlightStats id = some p → CACHE_TTL_MS ≤ now - s.lastFetchStats id →
      ∀ pid, fetchStatsStart now pid id s = (0, some p, s)) ∧
    (s.inFlightStats id = none → CACHE_TTL_MS ≤ now - s.lastFetchStats id → 1 ≤ n →
      (iterateFetchStatsStart now id n s).1 = 1) := by
  constructor
  · intro hin hstale pid
    have hf : ¬ (now - s.lastFetchStats id < CACHE_TTL_MS) := by omega
    simp [fetchStatsStart, hf, hin]
  · intro hin hstale hn
    obtain ⟨k, rfl⟩ : ∃ k, n = k + 1 := ⟨n - 1, by omega⟩
    have hf : ¬ (now - s.lastFetchStats id < CACHE_TTL_MS) := by omega
    simp only [iterateFetchStatsStart]
    have h1 : fetchStatsStart now (k + 1) id s
        = (1, some (k + 1),
           { s with inFlightStats := setFun s.inFlightStats id (some (k + 1)) }) := by
      simp [fetchStatsStart, hf, hin]
    rw [h1]
    rw [iterateFetchStatsStart_inflight now id k _ (k + 1) (by simp [setFun])]
    rfl

/-- Witness for C2's amended dedup at concrete states: an attached latecomer
issues no call, and three concurrent fetches issue exactly one. -/
theorem fetchStats_inflight_dedup_witness :
    (sExInFlight.inFlightStats "c1" = some 7 ∧
      CACHE_TTL_MS ≤ 50000 - sExInFlight.lastFetchStats "c1" ∧
      fetchStatsStart 50000 3 "c1" sExInFlight = (0, some 7, sExInFlight)) ∧
    (emptyCacheState.inFlightStats "c1" = none ∧
      CACHE_TTL_MS ≤ 50000 - emptyCacheState.lastFetchStats "c1" ∧ 1 ≤ 3 ∧
      (iterateFetchStatsStart 50000 "c1" 3 emptyCacheState).1 = 1) :=
  ⟨⟨rfl, by decide,
    (fetchStats_inflight_dedup sExInFlight "c1" 50000 3 7).1 rfl (by decide) 3⟩,
   ⟨rfl, by decide, by decide,
    (fetchStats_inflight_dedup emptyCacheState "c1" 50000 3 7).2 rfl (by decide) (by decide)⟩⟩

/-- C3: TTL respect — with a scope cached and stamped at time `T`, a read
accessor called strictly before `T + CACHE_TTL_MS` returns the cached value
and issues no network call; called at or after `T + CACHE_TTL_MS` (with no
refresh already outstanding) it returns the cached value and issues exactly
one background request, registering its in-flight marker. -/
theorem ttl_respect_read_accessors (s : CacheState) (id : String) (ch : Challenge)
    (st : ChallengeStats) (T now pid : Nat)
    (hch : s.challengeCache id = some ch) (hTd : s.lastFetchDetail id = T)
    (hst : s.statsCache id = some st) (hTs : s.lastFetchStats id = T)
    (hifD : s.inFlightDetail id = none) (hifS : s.inFlightStats id = none) :
    (now < T + CACHE_TTL_MS →
      getChallengeStart now pid id s = (0, SyncResult.value ch, s) ∧
      getStatsStart now pid id s = (0, SyncResult.value st, s)) ∧
    (T + CACHE_TTL_MS ≤ now →
      (getChallengeStart now pid id s).1 = 1 ∧
      (getChallengeStart now pid id s).2.1 = SyncResult.value ch ∧
      (getChallengeStart now pid id s).2.2.inFlightDetail id = some pid ∧
      (getStatsStart now pid id s).1 = 1 ∧
      (getStatsStart now pid id s).2.1 = SyncResult.value st ∧
      (getStatsStart now pid id s).2.2.inFlightStats id = some pid) := by
  constructor
  · intro hfresh
    have h30 : CACHE_TTL_MS = 30000 := rfl
    have hD : ¬ (CACHE_TTL_MS ≤ now - s.lastFetchDetail id) := by rw [hTd]; omega
    have hS : ¬ (CACHE_TTL_MS ≤ now - s.lastFetchStats id) := by rw [hTs]; omega
    constructor
    · simp [getChallengeStart, hch, hD]
    · simp [getStatsStart, hst, hS]
  · intro hstale
    have hD : CACHE_TTL_MS ≤ now - s.lastFetchDetail id := by rw [hTd]; omega
    have hS : CACHE_TTL_MS ≤ now - s.lastFetchStats id := by rw [hTs]; omega
    have hD2 : ¬ (now - s.lastFetchDetail id < CACHE_TTL_MS) := by omega
    have hS2 : ¬ (now - s.lastFetchStats id < CACHE_TTL_MS) := by omega
    refine ⟨?_, ?_, ?_, ?_, ?_, ?_⟩ <;>
      simp [getChallengeStart, getStatsStart, fetchChallengeDetailStart, fetchStatsStart,
        hch, hst, hD, hS, hD2, hS2, hifD, hifS, setFun]

/-- Witness for C3 at the populated example state: a fresh read at t=1500
and a stale read at t=40000 against a stamp of t=1000. -/
theorem ttl_respect_read_accessors_witness :
    (sExPop.challengeCache "c1" = some chEx ∧ sExPop.lastFetchDetail "c1" = 1000 ∧
      sExPop.statsCache "c1" = some stEx ∧ sExPop.lastFetchStats "c1" = 1000 ∧
      sExPop.inFlightDetail "c1" = none ∧ sExPop.inFlightStats "c1" = none) ∧
    (getChallengeStart 1500 9 "c1" sExPop = (0, SyncResult.value chEx, sExPop) ∧
      getStatsStart 1500 9 "c1" sExPop = (0, SyncResult.value stEx, sExPop)) ∧
    ((getChallengeStart 40000 9 "c1" sExPop).1 = 1 ∧
      (getChallengeStart 40000 9 "c1" sExPop).2.1 = SyncResult.value chEx ∧
      (getChallengeStart 40000 9 "c1" sExPop).2.2.inFlightDetail "c1" = some 9 ∧
      (getStatsStart 40000 9 "c1" sExPop).1 = 1 ∧
      (getStatsStart 40000 9 "c1" sExPop).2.1 = SyncResult.value stEx ∧
      (getStatsStart 40000 9 "c1" sExPop).2.2.inFlightStats "c1" = some 9) :=
  ⟨⟨rfl, rfl, rfl, rfl, rfl, rfl⟩,
   (ttl_respect_read_accessors sExPop "c1" chEx stEx 1000 1500 9
      rfl rfl rfl rfl rfl rfl).1 (by decide),
   (ttl_respect_read_accessors sExPop "c1" chEx stEx 1000 40000 9
      rfl rfl rfl rfl rfl rfl).2 (by decide)⟩

/-- C4: score derives from stats — after the `fetchStats` success
continuation applies a stats snapshot, every participant of the cached
challenge has score equal to the snapshot's total for their user id
(last entry wins), and score 0 when their user id is absent from the
scores list, regardless of the prior cached score. -/
theorem stats_apply_participant_scores (s : CacheState) (now : Nat) (id : String)
    (stats : ChallengeStats) (c : Challenge) (hc : s.challengeCache id = some c) :
    ∃ c2, (fetchStatsApply now id stats s).challengeCache id = some c2 ∧
      c2.participants.length = c.participants.length ∧
      ∀ p2 ∈ c2.participants,
        (∀ t, scoreMapLookup stats.scores p2.userId = some t → p2.score = t) ∧
        (scoreMapLookup stats.scores p2.userId = none → p2.score = 0) := by
  refine ⟨applyStatsToChallenge stats c, ?_, ?_, ?_⟩
  · simp [fetchStatsApply, hc, setFun]
  · simp [applyStatsToChallenge]
  · intro p2 hp2
    simp only [applyStatsToChallenge, List.mem_map] at hp2
    obtain ⟨p, _, rfl⟩ := hp2
    constructor
    · intro t ht
      simp only at ht ⊢
      rw [ht]
      rfl
    · intro ht
      simp only at ht ⊢
      rw [ht]
      rfl

/-- Witness for C4: the stats snapshot gives u1 total 42; u2 is absent. -/
theorem stats_apply_participant_scores_witness :
    sExPop.challengeCache "c1" = some chEx ∧
    (∃ c2, (fetchStatsApply 2000 "c1" stEx42 sExPop).challengeCache "c1" = some c2 ∧
      c2.participants.length = chEx.participants.length ∧
      ∀ p2 ∈ c2.participants,
        (∀ t, scoreMapLookup stEx42.scores p2.userId = some t → p2.score = t) ∧
        (scoreMapLookup stEx42.scores p2.userId = none → p2.score = 0)) :=
  ⟨rfl, stats_apply_participant_scores sExPop 2000 "c1" stEx42 chEx rfl⟩

/-- The fold of `refreshChallenges`'s cache updater preserves a non-empty
goal list held for `id` by the previous cache. -/
lemma mergeChallengeList_goals (prev : String → Option Challenge)
    (data : List Challenge) (id : String) (existing : Challenge)
    (h1 : prev id = some existing) (h2 : existing.goals ≠ []) :
    ∃ out, mergeChallengeList prev data id = some out ∧ out.goals ≠ [] := by
  have hE : existing.goals.isEmpty = false := by
    cases hgl : existing.goals
    · exact absurd hgl h2
    · rfl
  suffices H : ∀ g : String → Option Challenge,
      (∃ o, g id = some o ∧ o.goals ≠ []) →
      ∃ out, (data.foldl (mergeStep prev) g) id = some out ∧ out.goals ≠ [] by
    exact H prev ⟨existing, h1, h2⟩
  induction data with
  | nil =>
    intro g hg
    simpa using hg
  | cons c t ih =>
    intro g hg
    simp only [List.foldl_cons]
    apply ih
    unfold mergeStep setFun
    by_cases hcid : id = c.id
    · have hpc : prev c.id = some existing := by rw [← hcid]; exact h1
      refine ⟨mergeChallengeEntry existing c, ?_, ?_⟩
      · simp only [if_pos hcid, hpc]
      · simp only [mergeChallengeEntry, hE, Bool.false_eq_true, if_false]
        exact h2
    · rw [if_neg hcid]
      exact hg

/-- C5: merge never regresses — a list refresh merging into an existing
cache entry keeps a non-empty goal list non-empty, and merges participants
by user id, keeping the existing score and keeping the existing name/avatar
whenever the incoming field is blank. -/
theorem merge_never_regresses (s : CacheState) (now : Nat) (data : List Challenge)
    (id : String) (existing c : Challenge)
    (h1 : s.challengeCache id = some existing) (h2 : existing.goals ≠ []) :
    (∃ out, (refreshChallengesApply now data s).challengeCache id = some out ∧
      out.goals ≠ []) ∧
    (mergeChallengeEntry existing c).goals = existing.goals ∧
    ∀ p2 ∈ (mergeChallengeEntry existing c).participants,
      ∃ p ∈ c.participants, p2.userId = p.userId ∧
        (participantLookup existing.participants p.userId = none → p2 = p) ∧
        ∀ prior, participantLookup existing.participants p.userId = some prior →
          p2.score = prior.score ∧
          p2.name = (if p.name = "" then prior.name else p.name) ∧
          p2.avatar = (match p.avatar with
                       | none => prior.avatar
                       | some a => if a = "" then prior.avatar else some a) := by
  have hE : existing.goals.isEmpty = false := by
    cases hgl : existing.goals
    · exact absurd hgl h2
    · rfl
  refine ⟨?_, ?_, ?_⟩
  · simp only [refreshChallengesApply]
    exact mergeChallengeList_goals s.challengeCache data id existing h1 h2
  · simp only [mergeChallengeEntry, hE, Bool.false_eq_true, if_false]
  · intro p2 hp2
    simp only [mergeChallengeEntry, List.mem_map] at hp2
    obtain ⟨p, hp, rfl⟩ := hp2
    refine ⟨p, hp, ?_, ?_, ?_⟩
    · cases hl : participantLookup existing.participants p.userId with
      | none => rfl
      | some prior => rfl
    · intro hl
      rw [hl]
    · intro prior hl
      rw [hl]
      exact ⟨rfl, rfl, rfl⟩

/-- Witness for C5: a lightweight list entry (empty goals, blank names,
zero scores) merged over the populated cache entry. -/
theorem merge_never_regresses_witness :
    sExPop.challengeCache "c1" = some chEx ∧ chEx.goals ≠ [] ∧
    ((∃ out, (refreshChallengesApply 2000 [chExLight] sExPop).challengeCache "c1"
        = some out ∧ out.goals ≠ []) ∧
      (mergeChallengeEntry chEx chExLight).goals = chEx.goals ∧
      ∀ p2 ∈ (mergeChallengeEntry chEx chExLight).participants,
        ∃ p ∈ chExLight.participants, p2.userId = p.userId ∧
          (participantLookup chEx.participants p.userId = none → p2 = p) ∧
          ∀ prior, participantLookup chEx.participants p.userId = some prior →
            p2.score = prior.score ∧
            p2.name = (if p.name = "" then prior.name else p.name) ∧
            p2.avatar = (match p.avatar with
                         | none => prior.avatar
                         | some a => if a = "" then prior.avatar else some a)) :=
  ⟨rfl, by decide,
   merge_never_regresses sExPop 2000 [chExLight] "c1" chEx chExLight rfl (by decide)⟩

/-- C6 counterexample: goal g1 has `max_completions_per_period = NULL` and
u1 already has one completion in the daily period — the claimed default
limit of 1 would reject the second log with a policy violation, but
`logGoalCompletion` skips the limit check entirely for NULL and inserts a
second completion row. -/
theorem logGoalCompletion_null_limit_counterexample :
    dbExNull.goalMax "g1" = some none ∧
    completionCount dbExNull "g1" "u1" (getPeriodKey Frequency.daily dEx) = 1 ∧
    (match logGoalCompletion dbExNull "c1" "g1" "u1" 5 Frequency.daily dEx with
     | Except.ok db2 => db2.completions.length
     | Except.error _ => 0) = 2 :=
  ⟨rfl, by decide, by decide⟩

/-- C6 amended: when the goal's `max_completions_per_period` is non-null,
`logGoalCompletion` fails with the limit-reached policy error (inserting no
completion row) whenever the (goal, user, period-key) count has reached it;
when the column is NULL, no limit is enforced and the row is inserted. -/
theorem logGoalCompletion_period_limit (db : Db) (cid gid uid : String)
    (pts : Int) (freq : Frequency) (d : DateLW) :
    (∀ mx : Int, db.goalMax gid = some (some mx) →
      mx ≤ (completionCount db gid uid (getPeriodKey freq d) : Int) →
      logGoalCompletion db cid gid uid pts freq d
        = Except.error (LogFailure.limitReached freq)) ∧
    (db.goalMax gid = some none →
      logGoalCompletion db cid gid uid pts freq d
        = Except.ok { db with completions := db.completions ++
            [{ challenge_id := cid, goal_id := gid, user_id := uid,
               points_at_time := pts, period_key := getPeriodKey freq d,
               completion_at := d }] }) := by
  constructor
  · intro mx hg hcnt
    simp only [logGoalCompletion, hg]
    rw [if_pos hcnt]
  · intro hg
    simp only [logGoalCompletion, hg]

/-- Witness for C6's amended behaviour: a goal with limit 1 at count 1 is
rejected; the NULL-limit goal at count 1 still inserts. -/
theorem logGoalCompletion_period_limit_witness :
    (dbExLim.goalMax "g1" = some (some 1) ∧
      (1 : Int) ≤ (completionCount dbExLim "g1" "u1" (getPeriodKey Frequency.daily dEx) : Int) ∧
      logGoalCompletion dbExLim "c1" "g1" "u1" 5 Frequency.daily dEx
        = Except.error (LogFailure.limitReached Frequency.daily)) ∧
    (dbExNull.goalMax "g1" = some none ∧
      logGoalCompletion dbExNull "c1" "g1" "u1" 5 Frequency.daily dEx
        = Except.ok { dbExNull with completions := dbExNull.completions ++
            [{ challenge_id := "c1", goal_id := "g1", user_id := "u1",
               points_at_time := 5, period_key := getPeriodKey Frequency.daily dEx,
               completion_at := dEx }] }) :=
  ⟨⟨rfl, by decide,
    (logGoalCompletion_period_limit dbExLim "c1" "g1" "u1" 5 Frequency.daily dEx).1
      1 rfl (by decide)⟩,
   ⟨rfl,
    (logGoalCompletion_period_limit dbExNull "c1" "g1" "u1" 5 Frequency.daily dEx).2 rfl⟩⟩

/-- C7 counterexample: the weekly period key carries no `W` literal — the
source formats `weekly-${format(date, 'yyyy-ww')}`, so 2024-01-15 (locale
week 03) yields `weekly-2024-03`, not the claimed `weekly-YYYY-Www` shape. -/
theorem getPeriodKey_weekly_counterexample :
    getPeriodKey Frequency.weekly dEx = "weekly-2024-03" ∧
    ("weekly-2024-03".data.contains 'W') = false :=
  ⟨rfl, by decide⟩

/-- C7 amended: `getPeriodKey` is a deterministic function of frequency and
calendar date (independent of the time of day), producing
`daily-YYYY-MM-DD`, `weekly-YYYY-ww` (two-digit locale week number, no `W`
literal), `monthly-YYYY-MM`, and the constant `once`. -/
theorem getPeriodKey_formats (f : Frequency) (d1 d2 : DateLW)
    (hy : d1.year = d2.year) (hm : d1.month = d2.month)
    (hd : d1.day = d2.day) (hw : d1.week = d2.week) :
    getPeriodKey f d1 = getPeriodKey f d2 ∧
    getPeriodKey Frequency.daily d1
      = "daily-" ++ pad4 d1.year ++ "-" ++ pad2 d1.month ++ "-" ++ pad2 d1.day ∧
    getPeriodKey Frequency.weekly d1 = "weekly-" ++ pad4 d1.year ++ "-" ++ pad2 d1.week ∧
    getPeriodKey Frequency.monthly d1 = "monthly-" ++ pad4 d1.year ++ "-" ++ pad2 d1.month ∧
    getPeriodKey Frequency.once d1 = "once" := by
  refine ⟨?_, rfl, rfl, rfl, rfl⟩
  cases f <;> simp [getPeriodKey, hy, hm, hd, hw]

/-- Witness for C7's amended statement: the same calendar date at 09:30 and
22:05 produces identical keys of the stated shapes. -/
theorem getPeriodKey_formats_witness :
    (dEx.year = dEx2.year ∧ dEx.month = dEx2.month ∧ dEx.day = dEx2.day ∧
      dEx.week = dEx2.week) ∧
    (getPeriodKey Frequency.weekly dEx = getPeriodKey Frequency.weekly dEx2 ∧
      getPeriodKey Frequency.daily dEx
        = "daily-" ++ pad4 dEx.year ++ "-" ++ pad2 dEx.month ++ "-" ++ pad2 dEx.day ∧
      getPeriodKey Frequency.weekly dEx = "weekly-" ++ pad4 dEx.year ++ "-" ++ pad2 dEx.week ∧
      getPeriodKey Frequency.monthly dEx = "monthly-" ++ pad4 dEx.year ++ "-" ++ pad2 dEx.month ∧
      getPeriodKey Frequency.once dEx = "once") :=
  ⟨⟨rfl, rfl, rfl, rfl⟩,
   getPeriodKey_formats Frequency.weekly dEx dEx2 rfl rfl rfl rfl⟩

/-- C8 counterexample: `clearCache` does not wipe the in-flight markers — a
state with an outstanding whole-list request (tag 5) and an outstanding
stats request for c1 (tag 7) keeps both after the clear, contradicting the
claim that all in-flight trackers are wiped. -/
theorem clearCache_inflight_counterexample :
    (clearCache sExInFlight).inFlightStats "c1" = some 7 ∧
    (clearCache sExInFlight).inFlightAll = some 5 ∧
    ¬ ((clearCache sExInFlight).inFlightStats "c1" = none ∧
       (clearCache sExInFlight).inFlightAll = none) :=
  ⟨rfl, rfl, by decide⟩

/-- C8 amended: `clearCache` resets the challenge list to null, empties the
challenge and stats caches, clears the has-loaded flag, and zeroes the
whole-list, per-detail and per-stats freshness timestamps — but leaves all
three in-flight markers exactly as they were. -/
theorem clearCache_resets (s : CacheState) (k : String) :
    (clearCache s).challenges = none ∧
    (clearCache s).challengeCache k = none ∧
    (clearCache s).statsCache k = none ∧
    (clearCache s).hasLoaded = false ∧
    (clearCache s).lastFetchAll = 0 ∧
    (clearCache s).lastFetchDetail k = 0 ∧
    (clearCache s).lastFetchStats k = 0 ∧
    (clearCache s).inFlightAll = s.inFlightAll ∧
    (clearCache s).inFlightDetail k = s.inFlightDetail k ∧
    (clearCache s).inFlightStats k = s.inFlightStats k :=
  ⟨rfl, rfl, rfl, rfl, rfl, rfl, rfl, rfl, rfl, rfl⟩

/-- C9: optimistic mutations are no-ops on challenge ids absent from the
challenge cache (no entry created, no error), and with the id also absent
from the stats cache, `removeOptimisticLog` leaves the stats cache unchanged
while `addOptimisticLog` creates a stats entry built from `EMPTY_STATS`. -/
theorem optimistic_unknown_id_frame (s : CacheState) (c logId : String)
    (log : CompletionLog)
    (h1 : s.challengeCache c = none) (h2 : s.statsCache c = none) :
    (∀ k, (addOptimisticLog c log s).challengeCache k = s.challengeCache k) ∧
    (∀ k, (removeOptimisticLog c logId log s).challengeCache k = s.challengeCache k) ∧
    (∀ k, (removeOptimisticLog c logId log s).statsCache k = s.statsCache k) ∧
    (addOptimisticLog c log s).statsCache c
      = some (addOptimisticStats log EMPTY_STATS) := by
  refine ⟨?_, ?_, ?_, ?_⟩
  · intro k
    simp [addOptimisticLog, bumpParticipantScore, h1]
  · intro k
    simp [removeOptimisticLog, bumpParticipantScore, h1]
  · intro k
    simp [removeOptimisticLog, h2]
  · simp [addOptimisticLog, setFun, h2]

/-- Witness for C9 at the empty cache state. -/
theorem optimistic_unknown_id_frame_witness :
    emptyCacheState.challengeCache "c1" = none ∧
    emptyCacheState.statsCache "c1" = none ∧
    (addOptimisticLog "c1" logEx emptyCacheState).challengeCache "c1"
      = emptyCacheState.challengeCache "c1" ∧
    (removeOptimisticLog "c1" "temp1" logEx emptyCacheState).challengeCache "c1"
      = emptyCacheState.challengeCache "c1" ∧
    (removeOptimisticLog "c1" "temp1" logEx emptyCacheState).statsCache "c1"
      = emptyCacheState.statsCache "c1" ∧
    (addOptimisticLog "c1" logEx emptyCacheState).statsCache "c1"
      = some (addOptimisticStats logEx EMPTY_STATS) :=
  ⟨rfl, rfl,
   (optimistic_unknown_id_frame emptyCacheState "c1" "temp1" logEx rfl rfl).1 "c1",
   (optimistic_unknown_id_frame emptyCacheState "c1" "temp1" logEx rfl rfl).2.1 "c1",
   (optimistic_unknown_id_frame emptyCacheState "c1" "temp1" logEx rfl rfl).2.2.1 "c1",
   (optimistic_unknown_id_frame emptyCacheState "c1" "temp1" logEx rfl rfl).2.2.2⟩

/-- C10: non-negative period counts are preserved by `removeOptimisticLog` —
the decrement of the matching (user, goal, period) bucket is clamped at zero
by `Math.max(0, count - 1)` and every other bucket is untouched. -/
theorem remove_preserves_nonneg_counts (s : CacheState) (c logId : String)
    (log : CompletionLog)
    (h : ∀ pc ∈ (statsOf s c).periodCounts, 0 ≤ pc.count) :
    ∀ pc ∈ (statsOf (removeOptimisticLog c logId log s) c).periodCounts,
      0 ≤ pc.count := by
  cases hc : s.statsCache c with
  | none =>
    have heq : statsOf (removeOptimisticLog c logId log s) c = statsOf s c := by
      simp [removeOptimisticLog, statsOf, hc]
    rw [heq]
    exact h
  | some st =>
    have heq : statsOf (removeOptimisticLog c logId log s) c
        = removeOptimisticStats log st := by
      simp [removeOptimisticLog, statsOf, hc, setFun]
    have hst : ∀ pc ∈ st.periodCounts, 0 ≤ pc.count := by
      intro pc hpc
      exact h pc (by simp [statsOf, hc]; exact hpc)
    rw [heq]
    intro pc hpc
    simp only [removeOptimisticStats, List.mem_map] at hpc
    obtain ⟨pc0, hpc0, rfl⟩ := hpc
    by_cases hq : pc0.user_id = log.userId ∧ pc0.goal_id = log.goalId ∧
        pc0.period_key = "daily-" ++ strSlice log.timestamp 10
    · simp only [if_pos hq]
      exact le_max_left 0 _
    · simp only [if_neg hq]
      exact hst pc0 hpc0

/-- Witness for C10 at the populated example state. -/
theorem remove_preserves_nonneg_counts_witness :
    (∀ pc ∈ (statsOf sExPop "c1").periodCounts, 0 ≤ pc.count) ∧
    (∀ pc ∈ (statsOf (removeOptimisticLog "c1" "temp1" logEx sExPop) "c1").periodCounts,
      0 ≤ pc.count) :=
  ⟨by decide, remove_preserves_nonneg_counts sExPop "c1" "temp1" logEx (by decide)⟩
